import Mathlib

/-!
Shallow embedding of the govee-rs client library.

The repository carries two parallel generations of the same design:

* the older, loosely typed generation (`src/schema.rs`, `src/error.rs`,
  `src/lib.rs`): devices carry a `HashSet<String>` of supported command
  tokens, request builders validate locally and the blocking `Client`
  sends the built bodies;
* the newer, strongly typed generation (`src/models.rs`, `src/client.rs`,
  `src/endpoints.rs`): a closed `ControlCommand` enum, serde-driven
  (de)serialization, and an async `GoveeClient`.

Both are embedded below, in namespaces `schema` (with `lib` for its
client functions) and `models`.  Hash sets are modelled as lists with
membership semantics, `u32`/`u64`/`u8` values as `Nat` (the code never
performs wrapping arithmetic on them), fallible functions as `Except`
or `Option`, and serde decoding as functions over an inductive `Json`
value type.
-/

namespace govee

/-- JSON values, used to model `serde_json::Value` and the wire bodies.
Numbers are restricted to integers, which covers every field the
library (de)serializes. Objects are ordered association lists. -/
inductive Json where
  | null : Json
  | bool (b : Bool) : Json
  | num (n : Int) : Json
  | str (s : String) : Json
  | arr (elems : List Json) : Json
  | obj (fields : List (String × Json)) : Json

/-- First-match field lookup in a JSON object, the way serde's map
deserializer feeds fields to a struct visitor. -/
def lookupField : List (String × Json) → String → Option Json
  | [], _ => none
  | (k, v) :: rest, key => if k = key then some v else lookupField rest key

/-- serde's sequence decoding: decode every element, failing the whole
sequence on the first element that fails (`Vec<T>` semantics). -/
def decodeList (f : Json → Option α) : List Json → Option (List α)
  | [] => some []
  | x :: xs =>
    match f x with
    | none => none
    | some a =>
      match decodeList f xs with
      | none => none
      | some rest => some (a :: rest)

/-- Decode a JSON boolean. -/
def asBool : Json → Option Bool
  | .bool b => some b
  | _ => none

/-- Decode a JSON string. -/
def asString : Json → Option String
  | .str s => some s
  | _ => none

/-- Decode an unsigned integer (`u32`/`u64`): a non-negative JSON number. -/
def asUInt : Json → Option Nat
  | .num n => if 0 ≤ n then some n.toNat else none
  | _ => none

/-- `Except.isOk` as used below: did the builder succeed? -/
def isOkE : Except ε α → Bool
  | .ok _ => true
  | .error _ => false

namespace schema

/-- `schema::Command` (`src/schema.rs`): the four control commands. -/
inductive Command where
  | Turn
  | Brightness
  | Color
  | ColorTem
deriving DecidableEq, Repr

/-- `schema::Device` (`src/schema.rs`): `supported_commands` is a
`HashSet<String>` decoded from the `supportCmds` wire field; modelled
as a list with membership semantics. -/
structure Device where
  device : String
  model : String
  name : String
  controllable : Bool
  retrievable : Bool
  supported_commands : List String
deriving DecidableEq, Repr

/-- `schema::PowerState` (`src/schema.rs`). -/
inductive PowerState where
  | On
  | Off
deriving DecidableEq, Repr

/-- `schema::Color` (`src/schema.rs`): RGB with `u32` channels. -/
structure Color where
  r : Nat
  g : Nat
  b : Nat
deriving DecidableEq, Repr

/-- `GoveeError` (`src/error.rs`).  The `io::Error` and
`reqwest::Error` payloads carry no information the library inspects,
so they are dropped. -/
inductive GoveeError where
  | Error (msg : String)
  | NoDevicesReturned
  | Unsupported (cmd : Command) (device : Device)
  | IoError
  | RequestError
deriving DecidableEq, Repr

/-- `Result<T>` (`src/error.rs`). -/
abbrev GResult (α : Type) := Except GoveeError α

/-- `schema::PowerRequest`: `cmd` is a `HashMap<&str, &str>` built by
two inserts, modelled as the association list in insertion order. -/
structure PowerRequest where
  device : String
  model : String
  cmd : List (String × String)
deriving DecidableEq, Repr

/-- `schema::ColorInner`. -/
structure ColorInner where
  name : String
  value : Color
deriving DecidableEq, Repr

/-- `schema::ColorRequest`. -/
structure ColorRequest where
  device : String
  model : String
  cmd : ColorInner
deriving DecidableEq, Repr

/-- `schema::ColorTemInner`. -/
structure ColorTemInner where
  name : String
  value : Nat
deriving DecidableEq, Repr

/-- `schema::ColorTemRequest`. -/
structure ColorTemRequest where
  device : String
  model : String
  cmd : ColorTemInner
deriving DecidableEq, Repr

/-- `schema::BrightnessInner`. -/
structure BrightnessInner where
  name : String
  value : Nat
deriving DecidableEq, Repr

/-- `schema::BrightnessRequest`. -/
structure BrightnessRequest where
  device : String
  model : String
  cmd : BrightnessInner
deriving DecidableEq, Repr

/-- `schema::Device::supports` (`src/schema.rs` lines 107-114): match on
the command and test string membership in `supported_commands`. -/
def Device.supports (d : Device) (command : Command) : Bool :=
  match command with
  | .Turn => d.supported_commands.contains "turn"
  | .Brightness => d.supported_commands.contains "brightness"
  | .Color => d.supported_commands.contains "color"
  | .ColorTem => d.supported_commands.contains "colorTem"

/-- `schema::Device::toggle_request` (`src/schema.rs` lines 116-133). -/
def Device.toggle_request (d : Device) (state : PowerState) : GResult PowerRequest :=
  if !(d.supports .Turn) then
    .error (.Unsupported .Turn d)
  else
    .ok { device := d.device
          model := d.model
          cmd := [("name", "turn"),
                  ("value", match state with | .On => "on" | .Off => "off")] }

/-- `schema::Device::color_request` (`src/schema.rs` lines 135-148). -/
def Device.color_request (d : Device) (color : Color) : GResult ColorRequest :=
  if !(d.supports .Color) then
    .error (.Unsupported .Color d)
  else
    .ok { device := d.device
          model := d.model
          cmd := { name := "color", value := color } }

/-- `schema::Device::color_temperature_request` (`src/schema.rs` lines
150-169).  Note the source really does write `name: "color"` for the
built command. -/
def Device.color_temperature_request (d : Device) (value : Nat) : GResult ColorTemRequest :=
  if !(d.supports .ColorTem) then
    .error (.Unsupported .ColorTem d)
  else if value < 2000 || value > 9000 then
    .error (.Error "Color temperatures must be from 2000 to 9000 inclusive")
  else
    .ok { device := d.device
          model := d.model
          cmd := { name := "color", value := value } }

/-- `schema::Device::brightness_request` (`src/schema.rs` lines 171-185):
no range check of any kind on `value`. -/
def Device.brightness_request (d : Device) (value : Nat) : GResult BrightnessRequest :=
  if !(d.supports .Brightness) then
    .error (.Unsupported .Brightness d)
  else
    .ok { device := d.device
          model := d.model
          cmd := { name := "brightness", value := value } }

end schema

namespace models

/-- `models::ControlCommand` (`src/models.rs`): the closed command enum,
serde-renamed to camelCase tokens. -/
inductive ControlCommand where
  | Turn
  | Brightness
  | Color
  | ColorTem
deriving DecidableEq, Repr

/-- The serde camelCase token of a `ControlCommand` variant. -/
def ControlCommand.token : ControlCommand → String
  | .Turn => "turn"
  | .Brightness => "brightness"
  | .Color => "color"
  | .ColorTem => "colorTem"

/-- serde deserialization of a `ControlCommand` from its token:
case-sensitive, closed — any other string is a decode error. -/
def parseCommandToken (s : String) : Option ControlCommand :=
  if s = "turn" then some .Turn
  else if s = "brightness" then some .Brightness
  else if s = "color" then some .Color
  else if s = "colorTem" then some .ColorTem
  else none

/-- `models::Device` (`src/models.rs`): `supported_commands` is a
`HashSet<ControlCommand>` decoded from `supportCmds`. -/
structure Device where
  model : String
  device : String
  name : String
  controllable : Bool
  retrievable : Bool
  supported_commands : List ControlCommand
deriving DecidableEq, Repr

/-- `models::Device::supports` (`src/models.rs` lines 47-52): set
membership of the command. -/
def Device.supports (d : Device) (command : ControlCommand) : Bool :=
  d.supported_commands.contains command

/-- `models::PowerState` (`src/models.rs`), serde tokens "off"/"on". -/
inductive PowerState where
  | Off
  | On
deriving DecidableEq, Repr

/-- `models::Color` (`src/models.rs`): RGB with `u8` channels. -/
structure Color where
  r : Nat
  g : Nat
  b : Nat
deriving DecidableEq, Repr

/-- `models::ControlCmd` (`src/models.rs` lines 173-180): adjacently
tagged with `tag = "name"`, `content = "value"`, camelCase names. -/
inductive ControlCmd where
  | Turn (state : PowerState)
  | Brightness (value : Nat)
  | Color (color : Color)
  | ColorTem (value : Nat)
deriving DecidableEq, Repr

/-- The `name` tag serde writes for a `ControlCmd` (camelCase variant
names, per the container attribute on `ControlCmd`). -/
def ControlCmd.cmdName : ControlCmd → String
  | .Turn _ => "turn"
  | .Brightness _ => "brightness"
  | .Color _ => "color"
  | .ColorTem _ => "colorTem"

/-- serde serialization of the `value` content of a `ControlCmd`. -/
def ControlCmd.cmdValue : ControlCmd → Json
  | .Turn .Off => .str "off"
  | .Turn .On => .str "on"
  | .Brightness v => .num v
  | .Color c => .obj [("r", .num c.r), ("g", .num c.g), ("b", .num c.b)]
  | .ColorTem v => .num v

/-- serde serialization of a `ControlCmd`: `{"name": ..., "value": ...}`. -/
def ControlCmd.serialize (c : ControlCmd) : Json :=
  .obj [("name", .str c.cmdName), ("value", c.cmdValue)]

/-- `models::ControlRequest` (`src/models.rs`). -/
structure ControlRequest where
  device : String
  model : String
  cmd : ControlCmd
deriving DecidableEq, Repr

/-- `models::DeviceProperty` (`src/models.rs` lines 144-164): untagged
union of single-distinguishing-key shapes. -/
inductive DeviceProperty where
  | Online (online : Bool)
  | PowerState (power_state : PowerState)
  | Brightness (brightness : Nat)
  | Color (color : Color)
  | ColorTem (color_tem : Nat)
deriving DecidableEq, Repr

/-- `models::DeviceState` (`src/models.rs`). -/
structure DeviceState where
  device : String
  model : String
  properties : List DeviceProperty
deriving DecidableEq, Repr

/-- serde decoding of `models::PowerState` ("off"/"on", case-sensitive). -/
def decodePowerState (j : Json) : Option PowerState :=
  match j with
  | .str s => if s = "off" then some .Off else if s = "on" then some .On else none
  | _ => none

/-- Decode a `u8` channel value: a JSON integer in 0..=255. -/
def asU8 : Json → Option Nat
  | .num n => if 0 ≤ n ∧ n ≤ 255 then some n.toNat else none
  | _ => none

/-- serde decoding of `models::Color`: an object with `r`, `g`, `b`
`u8` fields (unknown extra fields ignored, serde's default). -/
def decodeColor (j : Json) : Option Color :=
  match j with
  | .obj fields =>
    match lookupField fields "r" with
    | none => none
    | some jr =>
      match asU8 jr with
      | none => none
      | some r =>
        match lookupField fields "g" with
        | none => none
        | some jg =>
          match asU8 jg with
          | none => none
          | some g =>
            match lookupField fields "b" with
            | none => none
            | some jb =>
              match asU8 jb with
              | none => none
              | some b => some { r := r, g := g, b := b }
  | _ => none

/-- serde decoding of the untagged `models::DeviceProperty`: try each
variant in declaration order; a variant matches when its
distinguishing field is present with a well-typed value (extra fields
are tolerated, serde's default for struct variants).  An object
matching no variant — e.g. a property key the library does not know —
is a decode error. -/
def decodeDeviceProperty (j : Json) : Option DeviceProperty :=
  match j with
  | .obj fields =>
    match lookupField fields "online" >>= asBool with
    | some b => some (.Online b)
    | none =>
      match lookupField fields "powerState" >>= decodePowerState with
      | some p => some (.PowerState p)
      | none =>
        match lookupField fields "brightness" >>= asUInt with
        | some v => some (.Brightness v)
        | none =>
          match lookupField fields "color" >>= decodeColor with
          | some c => some (.Color c)
          | none =>
            match lookupField fields "colorTem" >>= asUInt with
            | some v => some (.ColorTem v)
            | none => none
  | _ => none

/-- serde decoding of `Vec<DeviceProperty>` (the `properties` field of
`models::DeviceState`): all-or-nothing over the elements. -/
def decodeProperties (j : Json) : Option (List DeviceProperty) :=
  match j with
  | .arr elems => decodeList decodeDeviceProperty elems
  | _ => none

/-- serde decoding of the `supportCmds` field of `models::Device`
(`HashSet<ControlCommand>`): every element must be a recognized token. -/
def decodeSupportCmds (j : Json) : Option (List ControlCommand) :=
  match j with
  | .arr elems => decodeList (fun e => asString e >>= parseCommandToken) elems
  | _ => none

/-- serde decoding of `models::Device`: all six fields required,
`deviceName`/`supportCmds` renames as in the source. -/
def decodeDevice (j : Json) : Option Device :=
  match j with
  | .obj fields =>
    match lookupField fields "model" >>= asString with
    | none => none
    | some model =>
      match lookupField fields "device" >>= asString with
      | none => none
      | some device =>
        match lookupField fields "deviceName" >>= asString with
        | none => none
        | some name =>
          match lookupField fields "controllable" >>= asBool with
          | none => none
          | some controllable =>
            match lookupField fields "retrievable" >>= asBool with
            | none => none
            | some retrievable =>
              match lookupField fields "supportCmds" >>= decodeSupportCmds with
              | none => none
              | some cmds =>
                some { model := model, device := device, name := name,
                       controllable := controllable, retrievable := retrievable,
                       supported_commands := cmds }
  | _ => none

end models

namespace schema

/-- serde decoding of one `HashMap<String, Value>` element of
`schema::DeviceState::properties`: any JSON object decodes, whatever
its keys (modelled as the association list of its fields). -/
def decodeAnyObject (j : Json) : Option (List (String × Json)) :=
  match j with
  | .obj fields => some fields
  | _ => none

/-- serde decoding of `schema::DeviceState::properties`
(`Vec<HashMap<String, Value>>`, `src/schema.rs` lines 40-45). -/
def decodeStateProperties (j : Json) : Option (List (List (String × Json))) :=
  match j with
  | .arr elems => decodeList decodeAnyObject elems
  | _ => none

/-- serde decoding of the `supportCmds` field of `schema::Device`
(`HashSet<String>`): any array of strings decodes. -/
def decodeSupportCmds (j : Json) : Option (List String) :=
  match j with
  | .arr elems => decodeList asString elems
  | _ => none

/-- serde decoding of `schema::Device` (`src/schema.rs` lines 21-31). -/
def decodeDevice (j : Json) : Option Device :=
  match j with
  | .obj fields =>
    match lookupField fields "device" >>= asString with
    | none => none
    | some device =>
      match lookupField fields "model" >>= asString with
      | none => none
      | some model =>
        match lookupField fields "deviceName" >>= asString with
        | none => none
        | some name =>
          match lookupField fields "controllable" >>= asBool with
          | none => none
          | some controllable =>
            match lookupField fields "retrievable" >>= asBool with
            | none => none
            | some retrievable =>
              match lookupField fields "supportCmds" >>= decodeSupportCmds with
              | none => none
              | some cmds =>
                some { device := device, model := model, name := name,
                       controllable := controllable, retrievable := retrievable,
                       supported_commands := cmds }
  | _ => none

/-- `schema::Devices`. -/
structure Devices where
  devices : List Device
deriving DecidableEq, Repr

/-- serde decoding of `schema::Devices`. -/
def decodeDevices (j : Json) : Option Devices :=
  match j with
  | .obj fields =>
    match lookupField fields "devices" with
    | none => none
    | some jd =>
      match jd with
      | .arr elems =>
        match decodeList decodeDevice elems with
        | none => none
        | some ds => some { devices := ds }
      | _ => none
  | _ => none

/-- `schema::DevicesResponse` (`src/schema.rs`): `data` is
`Option<Devices>`. -/
structure DevicesResponse where
  data : Option Devices
  message : String
  code : Nat
deriving DecidableEq, Repr

/-- serde decoding of `schema::DevicesResponse`: an `Option` field is
`None` when absent or `null`. -/
def decodeDevicesResponse (j : Json) : Option DevicesResponse :=
  match j with
  | .obj fields =>
    match lookupField fields "message" >>= asString with
    | none => none
    | some message =>
      match lookupField fields "code" >>= asUInt with
      | none => none
      | some code =>
        match lookupField fields "data" with
        | none => some { data := none, message := message, code := code }
        | some .null => some { data := none, message := message, code := code }
        | some jd =>
          match decodeDevices jd with
          | none => none
          | some ds => some { data := some ds, message := message, code := code }
  | _ => none

end schema

/-- Outcome of one exchange through the HTTP transport collaborator:
either a response with some status code (a blocking `reqwest` `send`
returns `Ok` for any status, 2xx or not), or a connection-level
failure. -/
inductive TransportOutcome where
  | response (status : Nat)
  | failure
deriving DecidableEq, Repr

namespace lib

open schema

/-- `Client::toggle` (`src/lib.rs` lines 62-68): build the request body
(propagating builder errors with `?` before any network activity),
then PUT it and return `Ok(())` whatever the response status.  The
second component records whether the transport was invoked. -/
def clientToggle (d : Device) (state : PowerState) (tr : TransportOutcome) :
    GResult Unit × Bool :=
  match d.toggle_request state with
  | .error e => (.error e, false)
  | .ok _ =>
    match tr with
    | .response _ => (.ok (), true)
    | .failure => (.error .RequestError, true)

/-- `Client::set_color` (`src/lib.rs` lines 70-76). -/
def clientSetColor (d : Device) (color : Color) (tr : TransportOutcome) :
    GResult Unit × Bool :=
  match d.color_request color with
  | .error e => (.error e, false)
  | .ok _ =>
    match tr with
    | .response _ => (.ok (), true)
    | .failure => (.error .RequestError, true)

/-- `Client::set_color_temperature` (`src/lib.rs` lines 78-84). -/
def clientSetColorTemperature (d : Device) (value : Nat) (tr : TransportOutcome) :
    GResult Unit × Bool :=
  match d.color_temperature_request value with
  | .error e => (.error e, false)
  | .ok _ =>
    match tr with
    | .response _ => (.ok (), true)
    | .failure => (.error .RequestError, true)

/-- `Client::set_brightness` (`src/lib.rs` lines 86-92). -/
def clientSetBrightness (d : Device) (value : Nat) (tr : TransportOutcome) :
    GResult Unit × Bool :=
  match d.brightness_request value with
  | .error e => (.error e, false)
  | .ok _ =>
    match tr with
    | .response _ => (.ok (), true)
    | .failure => (.error .RequestError, true)

end lib

namespace models

/-- `client::GoveeError` (`src/client.rs` lines 18-48).  Error sources
carried by the variants are dropped except the `Http` status, which is
the datum the spec's HttpStatusError names. -/
inductive GoveeError where
  | UrlParse
  | AuthError
  | Communication
  | Http (status : Nat)
  | DataType
  | Api
deriving DecidableEq, Repr

/-- `GoveeClient::control` (`src/client.rs` lines 161-172): build the
`DeviceControlEndpoint` from the device identifiers and the command —
with no capability check of any kind — and query it.  The query is the
abstract transport `tr`; the second component records that the
transport is invoked (the body unconditionally reaches
`query_async`). -/
def goveeControl (d : Device) (cmd : ControlCmd)
    (tr : ControlRequest → Except GoveeError Unit) :
    Except GoveeError Unit × Bool :=
  (tr { device := d.device, model := d.model, cmd := cmd }, true)

/-- The HTTP status carried by a `client::GoveeError`, when it is the
HTTP-status error kind: only `Http` carries one. -/
def GoveeError.httpStatus : GoveeError → Option Nat
  | .Http status => some status
  | _ => none

end models

/-- The correspondence between the two generations' command enums
(constructor-wise; both render the same four wire tokens). -/
def commandToControl : schema.Command → models.ControlCommand
  | .Turn => .Turn
  | .Brightness => .Brightness
  | .Color => .Color
  | .ColorTem => .ColorTem

/-! Concrete fixture devices, mirroring the fake devices of the
repository's tests. -/

/-- A `schema::Device` supporting only `colorTem`. -/
def ctDevice : schema.Device :=
  { device := "34:20:03:15:82:ae", model := "H6089", name := "fake device",
    controllable := true, retrievable := true, supported_commands := ["colorTem"] }

/-- A `schema::Device` supporting all four commands. -/
def allDevice : schema.Device :=
  { device := "34:20:03:15:82:ae", model := "H6089", name := "fake device",
    controllable := true, retrievable := true,
    supported_commands := ["turn", "brightness", "color", "colorTem"] }

/-- A `schema::Device` supporting no command at all. -/
def emptyDevice : schema.Device :=
  { device := "34:20:03:15:82:ae", model := "H6089", name := "fake device",
    controllable := true, retrievable := true, supported_commands := [] }

/-- A `models::Device` supporting no command at all. -/
def noCmdModelsDevice : models.Device :=
  { model := "H6089", device := "34:20:03:15:82:ae", name := "fake device",
    controllable := true, retrievable := true, supported_commands := [] }

/-- A `schema::Device` supporting only turn — the Smart Plug of the
repository's test fixtures. -/
def plugDevice : schema.Device :=
  { device := "34:20:03:2e:30:2b", model := "H5081", name := "Smart Plug",
    controllable := true, retrievable := true, supported_commands := ["turn"] }

/-- A `schema::Device` supporting turn and colorTem. -/
def ctTurnDevice : schema.Device :=
  { device := "34:20:03:15:82:ae", model := "H6089", name := "fake device",
    controllable := true, retrievable := true, supported_commands := ["turn", "colorTem"] }

/-- The `models::Device` counterpart of `ctTurnDevice`. -/
def ctTurnModelsDevice : models.Device :=
  { model := "H6089", device := "34:20:03:15:82:ae", name := "fake device",
    controllable := true, retrievable := true, supported_commands := [.Turn, .ColorTem] }

/-- C1: for a device supporting ColorTemperature,
`color_temperature_request(D, t)` succeeds iff `2000 ≤ t ≤ 9000`, and
out-of-range values yield the validation error naming the bound. -/
theorem color_temperature_range (d : schema.Device) (t : Nat)
    (h : d.supports .ColorTem = true) :
    (isOkE (d.color_temperature_request t) = true ↔ (2000 ≤ t ∧ t ≤ 9000))
    ∧ ((t < 2000 ∨ 9000 < t) →
        d.color_temperature_request t =
          .error (.Error "Color temperatures must be from 2000 to 9000 inclusive")) := by
  by_cases hlo : t < 2000 <;> by_cases hhi : 9000 < t <;>
    (simp [schema.Device.color_temperature_request, h, isOkE, hlo, hhi]; try omega)

/-- C1 witness: instantiated at the boundary value t = 1999 on a
concrete device supporting ColorTemperature. -/
theorem color_temperature_range_witness :
    ctDevice.supports .ColorTem = true
    ∧ ((isOkE (ctDevice.color_temperature_request 1999) = true ↔ (2000 ≤ 1999 ∧ 1999 ≤ 9000))
       ∧ ((1999 < 2000 ∨ 9000 < 1999) →
           ctDevice.color_temperature_request 1999 =
             .error (.Error "Color temperatures must be from 2000 to 9000 inclusive"))) :=
  ⟨by decide, color_temperature_range ctDevice 1999 (by decide)⟩

/-- C2: with a well-formed payload (any power state, any color, any
brightness, an in-range color temperature), each request builder
succeeds iff the device supports the corresponding command, and on
failure returns the `Unsupported` error carrying the command and the
device. -/
theorem builders_capability_gate (d : schema.Device) (st : schema.PowerState)
    (col : schema.Color) (bv tv : Nat) (h1 : 2000 ≤ tv) (h2 : tv ≤ 9000) :
    (isOkE (d.toggle_request st) = d.supports .Turn
      ∧ (d.supports .Turn = false →
          d.toggle_request st = .error (.Unsupported .Turn d)))
    ∧ (isOkE (d.color_request col) = d.supports .Color
      ∧ (d.supports .Color = false →
          d.color_request col = .error (.Unsupported .Color d)))
    ∧ (isOkE (d.brightness_request bv) = d.supports .Brightness
      ∧ (d.supports .Brightness = false →
          d.brightness_request bv = .error (.Unsupported .Brightness d)))
    ∧ (isOkE (d.color_temperature_request tv) = d.supports .ColorTem
      ∧ (d.supports .ColorTem = false →
          d.color_temperature_request tv = .error (.Unsupported .ColorTem d))) := by
  refine ⟨⟨?_, ?_⟩, ⟨?_, ?_⟩, ⟨?_, ?_⟩, ⟨?_, ?_⟩⟩
  · cases hs : d.supports .Turn <;>
      simp [schema.Device.toggle_request, isOkE, hs]
  · intro hs; simp [schema.Device.toggle_request, hs]
  · cases hs : d.supports .Color <;>
      simp [schema.Device.color_request, isOkE, hs]
  · intro hs; simp [schema.Device.color_request, hs]
  · cases hs : d.supports .Brightness <;>
      simp [schema.Device.brightness_request, isOkE, hs]
  · intro hs; simp [schema.Device.brightness_request, hs]
  · cases hs : d.supports .ColorTem
    · simp [schema.Device.color_temperature_request, isOkE, hs]
    · have hcond : (decide (tv < 2000) || decide (tv > 9000)) = false := by
        simp only [Bool.or_eq_false_iff, decide_eq_false_iff_not]
        omega
      simp [schema.Device.color_temperature_request, isOkE, hs, hcond]
  · intro hs; simp [schema.Device.color_temperature_request, hs]

/-- C2 witness: instantiated on a device supporting only ColorTemperature,
with color temperature 2500. -/
theorem builders_capability_gate_witness :
    2000 ≤ 2500 ∧ 2500 ≤ 9000
    ∧ ((isOkE (ctDevice.toggle_request .On) = ctDevice.supports .Turn
      ∧ (ctDevice.supports .Turn = false →
          ctDevice.toggle_request .On = .error (.Unsupported .Turn ctDevice)))
    ∧ (isOkE (ctDevice.color_request ⟨1, 2, 3⟩) = ctDevice.supports .Color
      ∧ (ctDevice.supports .Color = false →
          ctDevice.color_request ⟨1, 2, 3⟩ = .error (.Unsupported .Color ctDevice)))
    ∧ (isOkE (ctDevice.brightness_request 50) = ctDevice.supports .Brightness
      ∧ (ctDevice.supports .Brightness = false →
          ctDevice.brightness_request 50 = .error (.Unsupported .Brightness ctDevice)))
    ∧ (isOkE (ctDevice.color_temperature_request 2500) = ctDevice.supports .ColorTem
      ∧ (ctDevice.supports .ColorTem = false →
          ctDevice.color_temperature_request 2500 =
            .error (.Unsupported .ColorTem ctDevice)))) :=
  ⟨by decide, by decide,
    builders_capability_gate ctDevice .On ⟨1, 2, 3⟩ 50 2500 (by decide) (by decide)⟩

/-- C5: `brightness_request` enforces no numeric bound — for a device
supporting Brightness, every value (including values above 100) passes
through unchecked and succeeds. -/
theorem brightness_unbounded (d : schema.Device) (v : Nat)
    (h : d.supports .Brightness = true) :
    d.brightness_request v =
      .ok { device := d.device, model := d.model,
            cmd := { name := "brightness", value := v } } := by
  simp [schema.Device.brightness_request, h]

/-- C5 witness: brightness 500 (far above 100) succeeds on a concrete
device supporting Brightness. -/
theorem brightness_unbounded_witness :
    allDevice.supports .Brightness = true
    ∧ allDevice.brightness_request 500 =
      .ok { device := allDevice.device, model := allDevice.model,
            cmd := { name := "brightness", value := 500 } } :=
  ⟨by decide, brightness_unbounded allDevice 500 (by decide)⟩

/-- C9: in `color_temperature_request` the unsupported-command check
precedes range validation — a device not supporting ColorTemperature
gets the `Unsupported` error for every value, even out-of-range ones. -/
theorem unsupported_check_precedes_range (d : schema.Device) (t : Nat)
    (h : d.supports .ColorTem = false) :
    d.color_temperature_request t = .error (.Unsupported .ColorTem d) := by
  simp [schema.Device.color_temperature_request, h]

/-- C9 witness: the out-of-range value 1000 on a device without
ColorTemperature support still yields `Unsupported`, not the range
error. -/
theorem unsupported_check_precedes_range_witness :
    emptyDevice.supports .ColorTem = false
    ∧ emptyDevice.color_temperature_request 1000 =
      .error (.Unsupported .ColorTem emptyDevice) :=
  ⟨by decide, unsupported_check_precedes_range emptyDevice 1000 (by decide)⟩

/-- C3 (code bug): `schema::Device::color_temperature_request` writes
`name: "color"` into the built `cmd` — not the vendor token
`"colorTem"` that the wire contract requires and that the newer
generation's `ControlCmd` serialization produces (shown alongside). -/
theorem colortem_name_code_bug :
    (ctDevice.color_temperature_request 2000).map (fun r => r.cmd.name) = .ok "color"
    ∧ (models.ControlCmd.ColorTem 2000).cmdName = "colorTem"
    ∧ (models.ControlCmd.Turn .On).cmdName = "turn"
    ∧ (models.ControlCmd.Brightness 50).cmdName = "brightness"
    ∧ (models.ControlCmd.Color ⟨1, 2, 3⟩).cmdName = "color"
    ∧ "color" ≠ "colorTem" := by
  refine ⟨rfl, rfl, rfl, rfl, rfl, by decide⟩

/-- C4 counterexample: the new-generation `GoveeClient::control`
performs no capability check — for a concrete device supporting no
command at all, issuing a ColorTemperature control invokes the HTTP
transport (second component `true`) and reports the transport's
success, with no `Unsupported` error (the new error enum has no such
variant). -/
theorem control_no_capability_check_cex :
    noCmdModelsDevice.supports .ColorTem = false
    ∧ models.goveeControl noCmdModelsDevice (.ColorTem 5000) (fun _ => .ok ())
      = (.ok (), true) :=
  ⟨by decide, rfl⟩

/-- C4 amended: each old-generation client operation (`toggle`,
`set_color`, `set_color_temperature`, `set_brightness`) returns the
`Unsupported` error carrying its command and the device without
invoking the transport whenever the device lacks that operation's
command (each conjunct assumes only its own command absent, so
mixed-capability devices are covered), while the new-generation
`GoveeClient::control` always invokes the transport regardless of the
device's supported set. -/
theorem control_capability_amended (d : schema.Device) (st : schema.PowerState)
    (col : schema.Color) (bv tv : Nat) (tr₁ tr₂ tr₃ tr₄ : TransportOutcome) :
    (d.supports .Turn = false →
      lib.clientToggle d st tr₁ = (.error (.Unsupported .Turn d), false))
    ∧ (d.supports .Color = false →
      lib.clientSetColor d col tr₂ = (.error (.Unsupported .Color d), false))
    ∧ (d.supports .ColorTem = false →
      lib.clientSetColorTemperature d tv tr₃ = (.error (.Unsupported .ColorTem d), false))
    ∧ (d.supports .Brightness = false →
      lib.clientSetBrightness d bv tr₄ = (.error (.Unsupported .Brightness d), false))
    ∧ (∀ (d₂ : models.Device) (cmd : models.ControlCmd)
        (tr : models.ControlRequest → Except models.GoveeError Unit),
        (models.goveeControl d₂ cmd tr).2 = true) := by
  refine ⟨?_, ?_, ?_, ?_, fun _ _ _ => rfl⟩
  · intro h1; simp [lib.clientToggle, schema.Device.toggle_request, h1]
  · intro h2; simp [lib.clientSetColor, schema.Device.color_request, h2]
  · intro h3; simp [lib.clientSetColorTemperature, schema.Device.color_temperature_request, h3]
  · intro h4; simp [lib.clientSetBrightness, schema.Device.brightness_request, h4]

/-- C4 amended witness: exercised on the mixed-capability Smart Plug
(turn only) for the three commands it lacks, on a device with no
commands for toggle, and with the new-generation transport stubbed. -/
theorem control_capability_amended_witness :
    (plugDevice.supports .Color = false
      ∧ lib.clientSetColor plugDevice ⟨1, 2, 3⟩ .failure
        = (.error (.Unsupported .Color plugDevice), false))
    ∧ (plugDevice.supports .ColorTem = false
      ∧ lib.clientSetColorTemperature plugDevice 5000 .failure
        = (.error (.Unsupported .ColorTem plugDevice), false))
    ∧ (plugDevice.supports .Brightness = false
      ∧ lib.clientSetBrightness plugDevice 50 .failure
        = (.error (.Unsupported .Brightness plugDevice), false))
    ∧ (emptyDevice.supports .Turn = false
      ∧ lib.clientToggle emptyDevice .On .failure
        = (.error (.Unsupported .Turn emptyDevice), false))
    ∧ (models.goveeControl noCmdModelsDevice (.ColorTem 5000) (fun _ => .ok ())).2 = true :=
  ⟨⟨by decide,
    (control_capability_amended plugDevice .On ⟨1, 2, 3⟩ 50 5000 .failure .failure .failure
      .failure).2.1 (by decide)⟩,
   ⟨by decide,
    (control_capability_amended plugDevice .On ⟨1, 2, 3⟩ 50 5000 .failure .failure .failure
      .failure).2.2.1 (by decide)⟩,
   ⟨by decide,
    (control_capability_amended plugDevice .On ⟨1, 2, 3⟩ 50 5000 .failure .failure .failure
      .failure).2.2.2.1 (by decide)⟩,
   ⟨by decide,
    (control_capability_amended emptyDevice .On ⟨1, 2, 3⟩ 50 5000 .failure .failure .failure
      .failure).1 (by decide)⟩,
   (control_capability_amended emptyDevice .On ⟨1, 2, 3⟩ 50 5000 .failure .failure .failure
      .failure).2.2.2.2 noCmdModelsDevice (.ColorTem 5000) (fun _ => .ok ())⟩

/-! Shared decoding lemmas. -/

/-- `Vec<T>` decoding fails whenever any element fails. -/
lemma decodeList_append_none (f : Json → Option α) (pre post : List Json) (y : Json)
    (hy : f y = none) : decodeList f (pre ++ y :: post) = none := by
  induction pre with
  | nil => simp [decodeList, hy]
  | cons x xs ih =>
    simp only [List.cons_append, decodeList]
    cases f x <;> simp [ih]

/-- Every list of JSON objects decodes, element for element, as
`schema::DeviceState` property maps. -/
lemma decodeList_map_obj (ls : List (List (String × Json))) :
    decodeList schema.decodeAnyObject (ls.map Json.obj) = some ls := by
  induction ls with
  | nil => rfl
  | cons x xs ih => simp [decodeList, schema.decodeAnyObject, ih]

/-- `parseCommandToken` inverts `ControlCommand.token`. -/
lemma parse_token_eq_some (s : String) (cc : models.ControlCommand) :
    models.parseCommandToken s = some cc ↔ s = cc.token := by
  cases cc <;> simp only [models.parseCommandToken, models.ControlCommand.token] <;>
    split_ifs <;> simp_all

/-- Membership in the token list mapped through the token-to-enum
mapping agrees with membership of the command's token. -/
lemma contains_filterMap_parse (S : List String) (cc : models.ControlCommand) :
    (S.filterMap models.parseCommandToken).contains cc = S.contains cc.token := by
  have h1 : cc ∈ S.filterMap models.parseCommandToken ↔ cc.token ∈ S := by
    rw [List.mem_filterMap]
    constructor
    · rintro ⟨s, hs, hp⟩
      rw [parse_token_eq_some] at hp
      rwa [← hp]
    · intro h
      exact ⟨cc.token, h, (parse_token_eq_some _ _).mpr rfl⟩
  exact Bool.eq_iff_iff.mpr (List.elem_iff.trans (h1.trans List.elem_iff.symm))

/-- C6 counterexample: in the new generation, a properties array with
one unrecognized single-key property object (here `someNewProp`) fails
to decode as a whole, even though its first element is a perfectly
recognizable `online` property. -/
theorem unknown_property_fails_models_cex :
    models.decodeProperties
      (.arr [.obj [("online", .bool false)], .obj [("someNewProp", .num 5)]]) = none := rfl

/-- C6 amended: only the old generation is tolerant — decoding
`schema::DeviceState::properties` succeeds on every array of JSON
objects, whatever their keys (each element is kept verbatim as a
key-value map), so an unrecognized single-key property never fails the
array there; the new generation's untagged `DeviceProperty` decoding
instead fails the whole array on one unrecognized property. -/
theorem schema_state_properties_tolerant (fieldLists : List (List (String × Json))) :
    schema.decodeStateProperties (.arr (fieldLists.map Json.obj)) = some fieldLists := by
  simp [schema.decodeStateProperties, decodeList_map_obj]

/-- C7 counterexample: the old generation decodes a devices-list
response whose `supportCmds` contains the unrecognized token
`"fancyNewCmd"` without any error, keeping the token verbatim in the
device's string set — an unrecognized token is not a decode error
there. -/
theorem unknown_support_cmd_schema_cex :
    schema.decodeDevicesResponse (.obj
      [("data", .obj [("devices", .arr [.obj
          [("device", .str "99:E5:A4:C1:38:29:DA:7B"),
           ("model", .str "H6159"),
           ("deviceName", .str "test light"),
           ("controllable", .bool true),
           ("retrievable", .bool true),
           ("supportCmds", .arr [.str "turn", .str "fancyNewCmd"])]])]),
       ("message", .str "Success"),
       ("code", .num 200)])
    = some { data := some { devices :=
               [{ device := "99:E5:A4:C1:38:29:DA:7B", model := "H6159",
                  name := "test light", controllable := true, retrievable := true,
                  supported_commands := ["turn", "fancyNewCmd"] }] },
             message := "Success", code := 200 } := rfl

/-- C7 amended: the closed enumeration holds in the new generation —
any `supportCmds` token outside the four case-sensitive command tokens
makes both the `supportCmds` field and the whole `models::Device`
decode fail; the old generation accepts any token string verbatim. -/
theorem models_unknown_support_cmd_rejected
    (dev mdl nm : String) (cb rb : Bool) (pre post : List Json) (s : String)
    (h1 : s ≠ "turn") (h2 : s ≠ "brightness") (h3 : s ≠ "color") (h4 : s ≠ "colorTem") :
    models.decodeSupportCmds (.arr (pre ++ .str s :: post)) = none
    ∧ models.decodeDevice (.obj
        [("device", .str dev), ("model", .str mdl), ("deviceName", .str nm),
         ("controllable", .bool cb), ("retrievable", .bool rb),
         ("supportCmds", .arr (pre ++ .str s :: post))]) = none := by
  have hparse : models.parseCommandToken s = none := by
    simp [models.parseCommandToken, h1, h2, h3, h4]
  have hfail : models.decodeSupportCmds (.arr (pre ++ .str s :: post)) = none := by
    simp only [models.decodeSupportCmds]
    exact decodeList_append_none _ pre post _ (by simp [asString, hparse])
  refine ⟨hfail, ?_⟩
  simp [models.decodeDevice, lookupField, asString, asBool, hfail]

/-- C7 amended witness: instantiated with the concrete unknown token
`"fancyNewCmd"` after a valid `"turn"`. -/
theorem models_unknown_support_cmd_rejected_witness :
    ("fancyNewCmd" ≠ "turn" ∧ "fancyNewCmd" ≠ "brightness"
      ∧ "fancyNewCmd" ≠ "color" ∧ "fancyNewCmd" ≠ "colorTem")
    ∧ (models.decodeSupportCmds (.arr ([.str "turn"] ++ .str "fancyNewCmd" :: [])) = none
      ∧ models.decodeDevice (.obj
          [("device", .str "99:E5:A4:C1:38:29:DA:7B"), ("model", .str "H6159"),
           ("deviceName", .str "test light"),
           ("controllable", .bool true), ("retrievable", .bool true),
           ("supportCmds", .arr ([.str "turn"] ++ .str "fancyNewCmd" :: []))]) = none) :=
  ⟨⟨by decide, by decide, by decide, by decide⟩,
    models_unknown_support_cmd_rejected "99:E5:A4:C1:38:29:DA:7B" "H6159" "test light"
      true true [.str "turn"] [] "fancyNewCmd"
      (by decide) (by decide) (by decide) (by decide)⟩

/-- C8 counterexample: the old-generation `Client::toggle` receiving an
HTTP 500 response reports success — it never looks at the status. -/
theorem non2xx_reports_success_cex :
    lib.clientToggle allDevice .On (.response 500) = (.ok (), true) := rfl

/-- C8 amended: each old-generation control operation ignores the HTTP
status entirely and reports success for every response status
(including non-2xx) whenever its request builder succeeds — each
conjunct assumes only its own operation's command supported (and, for
color temperature, an in-range value), so mixed-capability devices are
covered; a distinct HTTP-status error kind carrying the status code,
separate from the transport-failure kind, exists only in the new
generation's error enum (`client::GoveeError::Http`). -/
theorem old_client_ignores_status (d : schema.Device) (st : schema.PowerState)
    (col : schema.Color) (bv tv status : Nat) :
    (d.supports .Turn = true →
      lib.clientToggle d st (.response status) = (.ok (), true))
    ∧ (d.supports .Color = true →
      lib.clientSetColor d col (.response status) = (.ok (), true))
    ∧ (d.supports .Brightness = true →
      lib.clientSetBrightness d bv (.response status) = (.ok (), true))
    ∧ (d.supports .ColorTem = true → 2000 ≤ tv → tv ≤ 9000 →
      lib.clientSetColorTemperature d tv (.response status) = (.ok (), true))
    ∧ (∀ s : Nat, models.GoveeError.httpStatus (.Http s) = some s)
    ∧ models.GoveeError.httpStatus .Communication = none := by
  refine ⟨?_, ?_, ?_, ?_, fun _ => rfl, rfl⟩
  · intro h1; simp [lib.clientToggle, schema.Device.toggle_request, h1]
  · intro h2; simp [lib.clientSetColor, schema.Device.color_request, h2]
  · intro h3; simp [lib.clientSetBrightness, schema.Device.brightness_request, h3]
  · intro h4 h5 h6
    have hcond : (decide (tv < 2000) || decide (tv > 9000)) = false := by
      simp only [Bool.or_eq_false_iff, decide_eq_false_iff_not]
      omega
    simp [lib.clientSetColorTemperature, schema.Device.color_temperature_request, h4, hcond]

/-- C8 amended witness: toggle exercised on the turn-only Smart Plug
receiving a 500, the other operations on a device supporting all four
commands, with color temperature 2500. -/
theorem old_client_ignores_status_witness :
    (plugDevice.supports .Turn = true
      ∧ lib.clientToggle plugDevice .On (.response 500) = (.ok (), true))
    ∧ (allDevice.supports .Color = true
      ∧ lib.clientSetColor allDevice ⟨1, 2, 3⟩ (.response 500) = (.ok (), true))
    ∧ (allDevice.supports .Brightness = true
      ∧ lib.clientSetBrightness allDevice 50 (.response 500) = (.ok (), true))
    ∧ (allDevice.supports .ColorTem = true ∧ 2000 ≤ 2500 ∧ 2500 ≤ 9000
      ∧ lib.clientSetColorTemperature allDevice 2500 (.response 500) = (.ok (), true))
    ∧ (∀ s : Nat, models.GoveeError.httpStatus (.Http s) = some s)
    ∧ models.GoveeError.httpStatus .Communication = none :=
  ⟨⟨by decide,
    (old_client_ignores_status plugDevice .On ⟨1, 2, 3⟩ 50 2500 500).1 (by decide)⟩,
   ⟨by decide,
    (old_client_ignores_status allDevice .On ⟨1, 2, 3⟩ 50 2500 500).2.1 (by decide)⟩,
   ⟨by decide,
    (old_client_ignores_status allDevice .On ⟨1, 2, 3⟩ 50 2500 500).2.2.1 (by decide)⟩,
   ⟨by decide, by decide, by decide,
    (old_client_ignores_status allDevice .On ⟨1, 2, 3⟩ 50 2500 500).2.2.2.1
      (by decide) (by decide) (by decide)⟩,
   (old_client_ignores_status allDevice .On ⟨1, 2, 3⟩ 50 2500 500).2.2.2.2.1,
   (old_client_ignores_status allDevice .On ⟨1, 2, 3⟩ 50 2500 500).2.2.2.2.2⟩

/-- C10: the two generations' capability checks agree — for any set S
of the four command tokens and any command kind, the old generation's
string-membership `supports` on S equals the new generation's
set-membership `supports` on S mapped through the token-to-enum
mapping. -/
theorem supports_generations_agree (S : List String) (c : schema.Command)
    (d : schema.Device) (d₂ : models.Device)
    (_hS : ∀ s ∈ S, s = "turn" ∨ s = "brightness" ∨ s = "color" ∨ s = "colorTem")
    (hd : d.supported_commands = S)
    (hd₂ : d₂.supported_commands = S.filterMap models.parseCommandToken) :
    d.supports c = d₂.supports (commandToControl c) := by
  cases c <;>
    simp only [schema.Device.supports, models.Device.supports, commandToControl, hd, hd₂,
      contains_filterMap_parse, models.ControlCommand.token]

/-- C10 witness: instantiated on S = {"turn", "colorTem"} and the
ColorTemperature command. -/
theorem supports_generations_agree_witness :
    (∀ s ∈ ["turn", "colorTem"],
      s = "turn" ∨ s = "brightness" ∨ s = "color" ∨ s = "colorTem")
    ∧ ctTurnDevice.supported_commands = ["turn", "colorTem"]
    ∧ ctTurnModelsDevice.supported_commands
        = (["turn", "colorTem"].filterMap models.parseCommandToken)
    ∧ ctTurnDevice.supports .ColorTem
        = ctTurnModelsDevice.supports (commandToControl .ColorTem) :=
  ⟨by decide, rfl, by decide,
    supports_generations_agree ["turn", "colorTem"] .ColorTem
      ctTurnDevice ctTurnModelsDevice (by decide) rfl (by decide)⟩

end govee
